import Mathlib

/-!
Verification of the AI Music Studio composition pipeline: the frontend credit
ledger and compose handler (src/unnamed/part_002), the Express
`/api/compose-song` bounded job runner and the `callPythonProcessor` helper
(src/server/stripe-placeholder.md), and a spec-modelled synthesis engine for
the worker script that is not part of the embedded sources.
-/

namespace MusicStudio

/-- A string that the JavaScript idiom `!s.trim()` treats as missing lyrics:
empty, or every character whitespace (trimming leaves nothing). -/
def isBlank (s : String) : Bool := s.toList.all Char.isWhitespace

/-! ## Frontend credit ledger and compose handler (src/unnamed/part_002) -/

/-- Embeds `useCredit(amount)` (part_002 lines 54-60): when the balance is at
least `amount` it is decremented by `amount` and the call returns `true`;
otherwise the balance is untouched and the call returns `false`.  The result
pair is (returned boolean, balance after the call). -/
def useCredit (amount credits : Int) : Bool × Int :=
  if amount ≤ credits then (true, credits - amount) else (false, credits)

/-- The observable ways the compose-song fetch round trip inside
`handleCreateSongFromLyrics` can end, as seen by its try/catch: the whole
success path runs (response ok, body parses, audio decodes), or some step
throws (a non-ok HTTP status, the 130s client abort timer, or an unparsable
body), landing in the catch block. -/
inductive FetchOutcome where
  | success (audioB64 : String)
  | httpError (status : Nat)
  | aborted
  | malformedBody
  deriving DecidableEq

/-- Observable effects of one `handleCreateSongFromLyrics` invocation: the
final credit balance, whether the compose request was issued, how many times
the catch-block refund of 2 credits ran, and whether the paywall opened. -/
structure ComposeEffects where
  credits : Int
  requestSent : Bool
  refunds : Nat
  paywallOpened : Bool
  deriving DecidableEq

/-- Embeds `handleCreateSongFromLyrics` (part_002 lines 130-196): pick the
lyrics source, bail out on blank lyrics before touching credits, debit 2
credits via `useCredit` (opening the paywall and stopping when that fails),
then issue the request; the single catch block adds the 2 credits back on any
thrown error, and the success path never refunds. -/
def handleCreateSongFromLyrics (credits : Int) (useOriginalLyrics : Bool)
    (originalLyrics lyricsResult : String) (outcome : FetchOutcome) :
    ComposeEffects :=
  let lyricsToUse := if useOriginalLyrics then originalLyrics else lyricsResult
  if isBlank lyricsToUse then
    { credits := credits, requestSent := false, refunds := 0,
      paywallOpened := false }
  else
    match useCredit 2 credits with
    | (false, c) =>
      { credits := c, requestSent := false, refunds := 0, paywallOpened := true }
    | (true, c) =>
      match outcome with
      | .success _ =>
        { credits := c, requestSent := true, refunds := 0,
          paywallOpened := false }
      | _ =>
        { credits := c + 2, requestSent := true, refunds := 1,
          paywallOpened := false }

/-! ## Server: the `/api/compose-song` bounded job runner
(src/server/stripe-placeholder.md lines 398-506) -/

/-- The compose-song timer ceiling, from `setTimeout(..., 120000)`. -/
def composeTimeoutMs : Nat := 120000

/-- The single-file audio helper timer ceiling, from
`setTimeout(..., 60000)` in `callPythonProcessor`. -/
def audioProcTimeoutMs : Nat := 60000

/-- Outcome of the JSON parse of the accumulated stdout in the close handler:
the library call either throws, or yields a document whose `success`,
`audio_path` and `error` fields the handler inspects.  An absent, empty or
otherwise falsy `audio_path` is modelled as `none`. -/
inductive ParseOutcome where
  | parseError
  | parsed (success : Bool) (audioPath : Option String) (errMsg : Option String)
  deriving DecidableEq

/-- Data carried by the worker close event, together with the outcomes of the
library calls the handler then makes: the exit code, the JSON parse outcome on
the accumulated stdout, the bytes the file read returns (`none` when it
throws), and whether the unlink call throws. -/
structure CloseInfo where
  code : Int
  parse : ParseOutcome
  readData : Option String
  unlinkThrows : Bool
  deriving DecidableEq

/-- Events delivered to one compose-song invocation after the spawn: the 120s
timer firing, a spawn error, stdout/stderr data chunks, and the worker close
event. -/
inductive Ev where
  | timeoutFire
  | spawnError (msg : String)
  | stdoutData (s : String)
  | stderrData (s : String)
  | close (info : CloseInfo)
  deriving DecidableEq

/-- One HTTP response sent for a compose request: the success payload
carrying the audio bytes, or an error status with its taxonomy tag and
detail text. -/
inductive Response where
  | ok (audio : String)
  | err (status : Nat) (tag : String) (detail : String)
  deriving DecidableEq

/-- Per-invocation mutable state of the compose-song handler: the two output
accumulators, the `isResolved` flag, whether the 120s timer is still armed,
whether the worker has been killed, every response sent so far (in order),
and every path removed by a successful unlink. -/
structure RunnerState where
  stdoutData : String
  stderrData : String
  isResolved : Bool
  timerArmed : Bool
  killed : Bool
  responses : List Response
  unlinked : List String
  deriving DecidableEq

/-- State right after the spawn: buffers empty, timer armed, unresolved. -/
def initRunner : RunnerState :=
  { stdoutData := "", stderrData := "", isResolved := false, timerArmed := true,
    killed := false, responses := [], unlinked := [] }

/-- The worker close handler (lines 451-500): clear the timer; return if
already resolved, else mark resolved; a non-zero exit answers 500
"Song synthesis failed" with the captured stderr; a zero exit parses stdout —
a parse failure answers 500 "Failed to parse synthesis result" with the raw
stdout; a parsed document with truthy `success` and `audio_path` reads the
scratch file (a throwing read falls into the same parse-failure catch),
unlinks it (an unlink failure only warns), and answers the success payload;
any other parsed document answers 500 with its error field or the synthesis
failure tag. -/
def closeStep (s0 : RunnerState) (info : CloseInfo) : RunnerState :=
  let s := { s0 with timerArmed := false }
  if s.isResolved then s
  else
    let s := { s with isResolved := true }
    if info.code ≠ 0 then
      { s with responses :=
          s.responses ++ [.err 500 "Song synthesis failed" s.stderrData] }
    else
      match info.parse with
      | .parseError =>
        { s with responses :=
            s.responses ++
              [.err 500 "Failed to parse synthesis result" s.stdoutData] }
      | .parsed success audioPath errMsg =>
        match success, audioPath with
        | true, some p =>
          match info.readData with
          | some bytes =>
            if info.unlinkThrows then
              { s with responses := s.responses ++ [.ok bytes] }
            else
              { s with unlinked := s.unlinked ++ [p],
                       responses := s.responses ++ [.ok bytes] }
          | none =>
            { s with responses :=
                s.responses ++
                  [.err 500 "Failed to parse synthesis result" s.stdoutData] }
        | _, _ =>
          { s with responses :=
              s.responses ++
                [.err 500 (errMsg.getD "Song synthesis failed") s.stderrData] }

/-- One event step of the compose-song handler.  The timer callback (lines
424-431) only has an effect while the timer is armed; it then kills the
worker and answers the timeout error unless a response already went out.  The
spawn-error handler (lines 441-449) clears the timer and answers its error
unless resolved.  Data chunks accumulate.  The close event runs
`closeStep`. -/
def step (s : RunnerState) : Ev → RunnerState
  | .timeoutFire =>
    if s.timerArmed then
      let s1 := { s with timerArmed := false }
      if s1.isResolved then s1
      else
        { s1 with killed := true, isResolved := true,
                  responses := s1.responses ++
                    [.err 500 "Song generation timeout"
                      "Process took too long (120s)"] }
    else s
  | .spawnError msg =>
    let s1 := { s with timerArmed := false }
    if s1.isResolved then s1
    else
      { s1 with isResolved := true,
                responses := s1.responses ++
                  [.err 500 "Failed to start song generator" msg] }
  | .stdoutData d => { s with stdoutData := s.stdoutData ++ d }
  | .stderrData d => { s with stderrData := s.stderrData ++ d }
  | .close info => closeStep s info

/-- Run one compose-song invocation over a sequence of delivered events. -/
def run (events : List Ev) : RunnerState := events.foldl step initRunner

/-- JSON body of a compose request; absent fields are `none` and take the
destructuring defaults genre "pop", tempo 120, key "C major". -/
structure ComposeBody where
  lyrics : Option String
  genre : Option String
  tempo : Option Int
  key : Option String
  deriving DecidableEq

/-- The argument vector the handler passes to the spawned worker:
positional lyrics, genre, stringified tempo, key. -/
structure WorkerInvocation where
  lyrics : String
  genre : String
  tempo : Int
  key : String
  deriving DecidableEq

/-- Entry validation of `/api/compose-song` (lines 400-417): missing, empty or
whitespace-only lyrics are rejected with status 400 "Lyrics required" before
any spawn; otherwise the worker is spawned with the request fields forwarded
(defaults applied) — the tempo is stringified but otherwise untouched. -/
def composeSongEntry (b : ComposeBody) : Sum Response WorkerInvocation :=
  let lyrics := b.lyrics.getD ""
  if isBlank lyrics then Sum.inl (.err 400 "Lyrics required" "")
  else
    Sum.inr { lyrics := lyrics, genre := b.genre.getD "pop",
              tempo := b.tempo.getD 120, key := b.key.getD "C major" }

/-- The fetch outcome the frontend observes for a given server event trace:
no response before the 130s client abort reads as an abort, an error response
as an HTTP error, and the success payload as success. -/
def outcomeOfTrace (events : List Ev) : FetchOutcome :=
  match (run events).responses with
  | [] => .aborted
  | .ok audio :: _ => .success audio
  | .err status _ _ :: _ => .httpError status

/-! ## Server: the `callPythonProcessor` helper
(src/server/stripe-placeholder.md lines 54-103) -/

/-- Outcome of the JSON parse of the helper worker stdout. -/
inductive ProcParse where
  | parseError
  | parsed (result : String)
  deriving DecidableEq

/-- Events delivered to one `callPythonProcessor` invocation. -/
inductive ProcEv where
  | timeoutFire
  | spawnError (msg : String)
  | stdoutData (s : String)
  | stderrData (s : String)
  | close (code : Int) (parse : ProcParse)
  deriving DecidableEq

/-- How the helper promise settles. -/
inductive ProcOutcome where
  | resolved (result : String)
  | rejected (msg : String)
  deriving DecidableEq

/-- Per-invocation state of `callPythonProcessor`. -/
structure ProcState where
  stdoutData : String
  stderrData : String
  isResolved : Bool
  timerArmed : Bool
  killed : Bool
  outcomes : List ProcOutcome
  deriving DecidableEq

/-- Helper state right after the spawn. -/
def initProc : ProcState :=
  { stdoutData := "", stderrData := "", isResolved := false, timerArmed := true,
    killed := false, outcomes := [] }

/-- One event step of `callPythonProcessor`: its 60s timer kills the worker
and rejects with the fixed timeout message unless already settled; a spawn
error clears the timer and rejects; data chunks accumulate; the close event
clears the timer and, when not yet settled, rejects on a non-zero code with
the captured stderr, resolves on a parsed document, and rejects on a parse
failure. -/
def procStep (s : ProcState) : ProcEv → ProcState
  | .timeoutFire =>
    if s.timerArmed then
      let s1 := { s with timerArmed := false }
      if s1.isResolved then s1
      else
        { s1 with killed := true, isResolved := true,
                  outcomes := s1.outcomes ++
                    [.rejected "Python process timeout (60s)"] }
    else s
  | .spawnError msg =>
    let s1 := { s with timerArmed := false }
    if s1.isResolved then s1
    else
      { s1 with isResolved := true,
                outcomes := s1.outcomes ++
                  [.rejected ("Python spawn error: " ++ msg)] }
  | .stdoutData d => { s with stdoutData := s.stdoutData ++ d }
  | .stderrData d => { s with stderrData := s.stderrData ++ d }
  | .close code parse =>
    let s1 := { s with timerArmed := false }
    if s1.isResolved then s1
    else
      let s2 := { s1 with isResolved := true }
      if code ≠ 0 then
        { s2 with outcomes := s2.outcomes ++
            [.rejected ("Python process failed (code " ++ toString code ++
              "): " ++ s2.stderrData)] }
      else
        match parse with
        | .parsed r => { s2 with outcomes := s2.outcomes ++ [.resolved r] }
        | .parseError =>
          { s2 with outcomes := s2.outcomes ++
              [.rejected "Failed to parse Python output"] }

/-- Run one helper invocation over a sequence of delivered events. -/
def procRun (events : List ProcEv) : ProcState := events.foldl procStep initProc

/-! ## Synthesis engine, modelled from the spec

The worker script (the procedural song synthesizer) is not among the embedded
sources; only its callers and documentation are.  The definitions below are
therefore modelled from the specification text, not translated from code. -/

/-- Modelled from the spec: a NoteEvent of the data model — pitch in Hz,
start offset and duration in milliseconds, amplitude as a percentage. -/
structure NoteEvent where
  pitch : Nat
  startMs : Nat
  durationMs : Nat
  amplitude : Nat
  deriving DecidableEq

/-- Modelled from the spec: the Scale/Key Resolver — a case-insensitive
lookup from a key name to its seven scale-degree frequencies (Hz, rounded);
any unknown name falls back to C major rather than failing. -/
def resolveKey (name : String) : List Nat :=
  let n := name.toLower
  if n = "c major" then [262, 294, 330, 349, 392, 440, 494]
  else if n = "g major" then [392, 440, 494, 523, 587, 659, 740]
  else if n = "d major" then [294, 330, 370, 392, 440, 494, 554]
  else if n = "a minor" then [220, 247, 262, 294, 330, 349, 392]
  else if n = "e minor" then [330, 370, 392, 440, 494, 523, 587]
  else [262, 294, 330, 349, 392, 440, 494]

/-- Modelled from the spec: the reproducible deterministic hash of a
syllable unit, a polynomial rolling hash of its character content. -/
def unitHash (s : String) : Nat :=
  s.foldl (fun h c => (h * 31 + c.toNat) % 1000003) 7

/-- Modelled from the spec: syllable-like segmentation — split the lyric
text on whitespace, drop empty pieces, cap at 16 units. -/
def syllableUnits (lyrics : String) : List String :=
  ((lyrics.split Char.isWhitespace).filter (fun u => u ≠ "")).take 16

/-- Modelled from the spec: entry validation clamps tempo to [60, 200]. -/
def clampTempo (tempo : Int) : Int :=
  if tempo < 60 then 60 else if tempo > 200 then 200 else tempo

/-- Modelled from the spec: a GenrePattern — kick timing grid within one
bar, bass register offset in octaves, pad density. -/
structure GenrePattern where
  kickGrid : List Nat
  bassOctaveDown : Nat
  padDensity : Nat
  deriving DecidableEq

/-- Modelled from the spec: genre lookup; unknown genres fall back to the
pop preset, never fail. -/
def genrePattern (genre : String) : GenrePattern :=
  let g := genre.toLower
  if g = "rock" then { kickGrid := [0, 1, 2], bassOctaveDown := 1, padDensity := 1 }
  else if g = "edm" then { kickGrid := [0, 1, 2, 3], bassOctaveDown := 2, padDensity := 3 }
  else { kickGrid := [0, 2], bassOctaveDown := 1, padDensity := 2 }

/-- Modelled from the spec: the Lyric-to-Melody Mapper — each unit is
assigned the scale degree given by its hash modulo the scale length, one
beat (60000/tempo milliseconds) per unit, consecutive starts, fixed
amplitude. -/
def mapToMelody (lyrics : String) (scale : List Nat) (tempo : Int) :
    List NoteEvent :=
  let beatMs := 60000 / tempo.toNat
  (syllableUnits lyrics).enum.map fun p =>
    { pitch := scale.getD (unitHash p.2 % scale.length) 262,
      startMs := p.1 * beatMs, durationMs := beatMs, amplitude := 80 }

/-- Modelled from the spec: the per-note oscillator of the Melody
Oscillator, abstracted to a short deterministic sample block per note. -/
def noteSamples (n : NoteEvent) : List Int :=
  (List.range 4).map fun k =>
    (Int.ofNat ((n.pitch * (k + 1) * n.amplitude) % 200)) - 100

/-- Modelled from the spec: the melody track buffer. -/
def melodyTrack (melody : List NoteEvent) : List Int :=
  (melody.map noteSamples).flatten

/-- Modelled from the spec: the Bass Line Generator — the melody line
transposed down by the genre octave offset, simpler waveform. -/
def bassTrack (melody : List NoteEvent) (pat : GenrePattern) : List Int :=
  (melody.map fun n =>
    noteSamples { n with pitch := n.pitch / (2 ^ pat.bassOctaveDown) }).flatten

/-- Modelled from the spec: the Drum Pattern Generator — the genre kick
grid replicated across the bars of the song. -/
def drumTrack (pat : GenrePattern) (bars : Nat) : List Int :=
  ((List.range bars).map fun _ =>
    pat.kickGrid.map fun b => Int.ofNat ((b * 50) % 100) - 50).flatten

/-- Modelled from the spec: the Synth Pad Generator — a sustained
low-amplitude blend rooted on the first scale degree, density from the
genre pattern. -/
def padTrack (scale : List Nat) (pat : GenrePattern) (len : Nat) : List Int :=
  (List.range len).map fun k =>
    Int.ofNat ((scale.getD 0 262 * (k + 1) * pat.padDensity) % 120) - 60

/-- Modelled from the spec: sample-wise sum of two track buffers,
zero-extending the shorter one. -/
def addTracks : List Int → List Int → List Int
  | [], b => b
  | a, [] => a
  | x :: a, y :: b => (x + y) :: addTracks a b

/-- Modelled from the spec: soft limiting to a peak ceiling just below
full scale. -/
def softClip (ceiling x : Int) : Int :=
  if x > ceiling then ceiling else if x < -ceiling then -ceiling else x

/-- Modelled from the spec: the Mixer/Mastering Stage — sum the four
tracks and limit the result to the peak ceiling. -/
def mixTracks (m d b p : List Int) : List Int :=
  (addTracks (addTracks m d) (addTracks b p)).map (softClip 95)

/-- Modelled from the spec: the CompositionResult — audio buffer, sample
rate, duration, section labels, and the melody trace. -/
structure CompositionResult where
  audioSamples : List Int
  sampleRate : Nat
  durationMs : Nat
  structureLabels : List String
  melodyTrace : List NoteEvent
  deriving DecidableEq

/-- Modelled from the spec: the Synthesis Engine root `compose` — reject
blank lyrics, resolve key and genre with fallbacks, clamp tempo, map lyrics
to a melody, generate the four tracks, mix, and attach the fixed section
label sequence.  Pure apart from the deterministic hash; no randomness and
no time-based seeding. -/
def compose (lyrics genre : String) (tempo : Int) (key : String) :
    Option CompositionResult :=
  if isBlank lyrics then none
  else
    let t := clampTempo tempo
    let scale := resolveKey key
    let pat := genrePattern genre
    let melody := mapToMelody lyrics scale t
    let durationMs :=
      melody.foldl (fun acc n => max acc (n.startMs + n.durationMs)) 0
    let m := melodyTrack melody
    let audio := mixTracks m (drumTrack pat melody.length)
      (bassTrack melody pat) (padTrack scale pat m.length)
    some { audioSamples := audio, sampleRate := 44100, durationMs := durationMs,
           structureLabels := ["Intro", "Verse", "Chorus", "Verse", "Chorus",
             "Bridge", "Chorus", "Outro"],
           melodyTrace := melody }

end MusicStudio

namespace MusicStudio

/-! ## Helper lemmas about the runner state machine -/

theorem closeStep_resolved (s : RunnerState) (info : CloseInfo)
    (h : s.isResolved = true) :
    closeStep s info = { s with timerArmed := false } := by
  simp [closeStep, h]

theorem closeStep_of_unresolved (s : RunnerState) (info : CloseInfo)
    (h : s.isResolved = false) :
    ∃ r, (closeStep s info).responses = s.responses ++ [r] ∧
      (closeStep s info).isResolved = true ∧
      (closeStep s info).timerArmed = false := by
  unfold closeStep
  simp only [h, Bool.false_eq_true, if_false]
  repeat' first
  | exact ⟨_, rfl, rfl, rfl⟩
  | split

theorem closeStep_resolves (s : RunnerState) (info : CloseInfo) :
    (closeStep s info).isResolved = true := by
  by_cases h : s.isResolved = true
  · rw [closeStep_resolved s info h]; exact h
  · obtain ⟨r, _, hres, _⟩ :=
      closeStep_of_unresolved s info (by simpa using h)
    exact hres

theorem closeStep_timer_off (s : RunnerState) (info : CloseInfo) :
    (closeStep s info).timerArmed = false := by
  by_cases h : s.isResolved = true
  · rw [closeStep_resolved s info h]
  · obtain ⟨r, _, _, ht⟩ :=
      closeStep_of_unresolved s info (by simpa using h)
    exact ht

theorem step_timeout_of_unarmed (s : RunnerState) (h : s.timerArmed = false) :
    step s .timeoutFire = s := by
  simp [step, h]

/-- The count of responses matches the `isResolved` flag. -/
def RespInv (s : RunnerState) : Prop :=
  s.responses.length = if s.isResolved then 1 else 0

theorem step_inv (s : RunnerState) (e : Ev) (h : RespInv s) :
    RespInv (step s e) := by
  unfold RespInv at h ⊢
  cases e with
  | timeoutFire =>
    by_cases ha : s.timerArmed = true
    · by_cases hr : s.isResolved = true <;> simp [step, ha, hr, h] at h ⊢
    · simp only [Bool.not_eq_true] at ha
      simp [step, ha, h]
  | spawnError m =>
    by_cases hr : s.isResolved = true <;> simp [step, hr, h] at h ⊢
  | stdoutData d => simpa [step] using h
  | stderrData d => simpa [step] using h
  | close info =>
    by_cases hr : s.isResolved = true
    · rw [show step s (.close info) = closeStep s info from rfl,
        closeStep_resolved s info hr]
      simpa [hr] using h
    · have hr' : s.isResolved = false := by simpa using hr
      obtain ⟨r, hresp, hres, _⟩ := closeStep_of_unresolved s info hr'
      rw [show step s (.close info) = closeStep s info from rfl] at *
      rw [hresp, hres]
      simp [hr'] at h
      simp [h]

theorem foldl_inv (l : List Ev) (s : RunnerState) (h : RespInv s) :
    RespInv (l.foldl step s) := by
  induction l generalizing s with
  | nil => exact h
  | cons e t ih => exact ih _ (step_inv s e h)

theorem run_inv (events : List Ev) : RespInv (run events) :=
  foldl_inv events initRunner (by simp [RespInv, initRunner])

theorem step_resolved_mono (s : RunnerState) (e : Ev)
    (h : s.isResolved = true) : (step s e).isResolved = true := by
  cases e with
  | timeoutFire =>
    by_cases ha : s.timerArmed = true <;> simp [step, ha, h]
  | spawnError m => simp [step, h]
  | stdoutData d => simpa [step] using h
  | stderrData d => simpa [step] using h
  | close info => exact closeStep_resolves s info

theorem foldl_resolved_mono (l : List Ev) (s : RunnerState)
    (h : s.isResolved = true) : (l.foldl step s).isResolved = true := by
  induction l generalizing s with
  | nil => exact h
  | cons e t ih => exact ih _ (step_resolved_mono s e h)

/-- Whether an event settles the invocation regardless of the timer. -/
def terminalEv : Ev → Bool
  | .close _ => true
  | .spawnError _ => true
  | _ => false

theorem spawnError_resolves (s : RunnerState) (m : String) :
    (step s (.spawnError m)).isResolved = true := by
  by_cases hr : s.isResolved = true <;> simp [step, hr]

theorem terminal_trace_resolves (l : List Ev) (s : RunnerState)
    (h : l.any terminalEv = true) : (l.foldl step s).isResolved = true := by
  induction l generalizing s with
  | nil => simp at h
  | cons e t ih =>
    rw [List.any_cons] at h
    rcases Bool.or_eq_true_iff.mp h with he | ht
    · cases e with
      | timeoutFire => simp [terminalEv] at he
      | stdoutData d => simp [terminalEv] at he
      | stderrData d => simp [terminalEv] at he
      | spawnError m =>
        exact foldl_resolved_mono t _ (spawnError_resolves s m)
      | close info =>
        exact foldl_resolved_mono t _ (closeStep_resolves s info)
    · exact ih _ ht

/-- The frontend compose attempt against a server event trace: the handler
run on the fetch outcome that trace produces. -/
def composeAttempt (credits : Int) (uo : Bool) (orig lyr : String)
    (events : List Ev) : ComposeEffects :=
  handleCreateSongFromLyrics credits uo orig lyr (outcomeOfTrace events)

theorem handle_after_debit (credits : Int) (uo : Bool) (orig lyr : String)
    (o : FetchOutcome) (hly : isBlank (if uo then orig else lyr) = false)
    (hc : 2 ≤ credits) :
    handleCreateSongFromLyrics credits uo orig lyr o =
      match o with
      | .success _ => ⟨credits - 2, true, 0, false⟩
      | _ => ⟨credits, true, 1, false⟩ := by
  have hdeb : useCredit 2 credits = (true, credits - 2) := by
    simp [useCredit, hc]
  cases o <;>
    simp [handleCreateSongFromLyrics, hly, hdeb]

end MusicStudio

namespace MusicStudio

/-! ## Claim theorems -/

/-- C1: for every composition request whose job ends in a non-Completed
outcome (HTTP error response, timeout/abort, or unparsable result) the
2-credit debit taken at job start is refunded, exactly once — even when the
server trace carries several racing terminal events, at most one response and
hence at most one refund occurs — while on a Completed (success) outcome the
debit stands. -/
theorem refund_applied_exactly_once (credits : Int) (uo : Bool)
    (orig lyr : String) (events : List Ev)
    (hly : isBlank (if uo then orig else lyr) = false) (hc : 2 ≤ credits) :
    (composeAttempt credits uo orig lyr events).refunds ≤ 1 ∧
    (∀ a, outcomeOfTrace events = .success a →
      composeAttempt credits uo orig lyr events =
        ⟨credits - 2, true, 0, false⟩) ∧
    ((∀ a, outcomeOfTrace events ≠ .success a) →
      composeAttempt credits uo orig lyr events = ⟨credits, true, 1, false⟩) := by
  unfold composeAttempt
  rw [handle_after_debit credits uo orig lyr _ hly hc]
  refine ⟨?_, ?_, ?_⟩
  · cases outcomeOfTrace events <;> simp
  · intro a ha; rw [ha]
  · intro hno
    cases ho : outcomeOfTrace events with
    | success a => exact absurd ho (hno a)
    | httpError st => rfl
    | aborted => rfl
    | malformedBody => rfl

theorem refund_applied_exactly_once_witness :
    (composeAttempt 5 true "la" ""
      [Ev.timeoutFire,
       Ev.close ⟨0, .parsed true (some "/tmp/a.wav") none, some "RIFF", false⟩]).refunds ≤ 1 ∧
    (∀ a, outcomeOfTrace
        [Ev.timeoutFire,
         Ev.close ⟨0, .parsed true (some "/tmp/a.wav") none, some "RIFF", false⟩] =
        .success a →
      composeAttempt 5 true "la" ""
        [Ev.timeoutFire,
         Ev.close ⟨0, .parsed true (some "/tmp/a.wav") none, some "RIFF", false⟩] =
        ⟨5 - 2, true, 0, false⟩) ∧
    ((∀ a, outcomeOfTrace
        [Ev.timeoutFire,
         Ev.close ⟨0, .parsed true (some "/tmp/a.wav") none, some "RIFF", false⟩] ≠
        .success a) →
      composeAttempt 5 true "la" ""
        [Ev.timeoutFire,
         Ev.close ⟨0, .parsed true (some "/tmp/a.wav") none, some "RIFF", false⟩] =
        ⟨5, true, 1, false⟩) :=
  refund_applied_exactly_once 5 true "la" ""
    [Ev.timeoutFire,
     Ev.close ⟨0, .parsed true (some "/tmp/a.wav") none, some "RIFF", false⟩]
    (by decide) (by decide)

/-- C2: a request whose lyrics are empty or whitespace-only is rejected
immediately — the server entry answers 400 "Lyrics required" and spawns no
worker, and the frontend handler issues no request and neither debits nor
refunds any credit. -/
theorem empty_lyrics_rejected_without_debit (b : ComposeBody) (credits : Int)
    (uo : Bool) (orig lyr : String) (outcome : FetchOutcome)
    (hb : isBlank (b.lyrics.getD "") = true)
    (hf : isBlank (if uo then orig else lyr) = true) :
    composeSongEntry b = Sum.inl (Response.err 400 "Lyrics required" "") ∧
    handleCreateSongFromLyrics credits uo orig lyr outcome =
      ⟨credits, false, 0, false⟩ := by
  constructor
  · simp [composeSongEntry, hb]
  · simp [handleCreateSongFromLyrics, hf]

theorem empty_lyrics_rejected_without_debit_witness :
    composeSongEntry ⟨some "   ", none, none, none⟩ =
      Sum.inl (Response.err 400 "Lyrics required" "") ∧
    handleCreateSongFromLyrics 5 false "" "  " FetchOutcome.aborted =
      ⟨5, false, 0, false⟩ :=
  empty_lyrics_rejected_without_debit ⟨some "   ", none, none, none⟩ 5 false
    "" "  " FetchOutcome.aborted (by decide) (by decide)

theorem procTimeout_of_unarmed (p : ProcState) (h : p.timerArmed = false) :
    procStep p .timeoutFire = p := by
  simp [procStep, h]

/-- C3: the ceilings are 120 seconds for a full composition job and 60
seconds for the single-file audio helper; in both machines a timer that
fires on an unresolved run kills the worker and resolves with the timeout
outcome, and a worker close disarms the timer so that a later timer event
changes nothing. -/
theorem timeout_ceilings_kill_and_disarm (s : RunnerState) (info : CloseInfo)
    (p : ProcState) (code : Int) (pr : ProcParse)
    (ha : s.timerArmed = true) (hr : s.isResolved = false)
    (hpa : p.timerArmed = true) (hpr : p.isResolved = false) :
    composeTimeoutMs = 120000 ∧ audioProcTimeoutMs = 60000 ∧
    (step s .timeoutFire).killed = true ∧
    (step s .timeoutFire).responses = s.responses ++
      [.err 500 "Song generation timeout" "Process took too long (120s)"] ∧
    (step s (.close info)).timerArmed = false ∧
    step (step s (.close info)) .timeoutFire = step s (.close info) ∧
    (procStep p .timeoutFire).killed = true ∧
    (procStep p .timeoutFire).outcomes = p.outcomes ++
      [.rejected "Python process timeout (60s)"] ∧
    (procStep p (.close code pr)).timerArmed = false ∧
    procStep (procStep p (.close code pr)) .timeoutFire =
      procStep p (.close code pr) := by
  have hct : (step s (.close info)).timerArmed = false :=
    closeStep_timer_off s info
  have hpct : (procStep p (.close code pr)).timerArmed = false := by
    by_cases h : code = 0
    · cases pr <;> simp [procStep, hpr, h]
    · simp [procStep, hpr, h]
  refine ⟨rfl, rfl, ?_, ?_, hct, ?_, ?_, ?_, hpct, ?_⟩
  · simp [step, ha, hr]
  · simp [step, ha, hr]
  · exact step_timeout_of_unarmed _ hct
  · simp [procStep, hpa, hpr]
  · simp [procStep, hpa, hpr]
  · exact procTimeout_of_unarmed _ hpct

theorem timeout_ceilings_kill_and_disarm_witness :
    composeTimeoutMs = 120000 ∧ audioProcTimeoutMs = 60000 ∧
    (step initRunner .timeoutFire).killed = true ∧
    (step initRunner .timeoutFire).responses = initRunner.responses ++
      [.err 500 "Song generation timeout" "Process took too long (120s)"] ∧
    (step initRunner (.close ⟨1, .parseError, none, false⟩)).timerArmed = false ∧
    step (step initRunner (.close ⟨1, .parseError, none, false⟩)) .timeoutFire =
      step initRunner (.close ⟨1, .parseError, none, false⟩) ∧
    (procStep initProc .timeoutFire).killed = true ∧
    (procStep initProc .timeoutFire).outcomes = initProc.outcomes ++
      [.rejected "Python process timeout (60s)"] ∧
    (procStep initProc (.close 1 .parseError)).timerArmed = false ∧
    procStep (procStep initProc (.close 1 .parseError)) .timeoutFire =
      procStep initProc (.close 1 .parseError) :=
  timeout_ceilings_kill_and_disarm initRunner ⟨1, .parseError, none, false⟩
    initProc 1 .parseError rfl rfl rfl rfl

/-- C4: every compose-song invocation sends at most one HTTP response over
any event trace — so never both a success and an error — and any trace that
contains a worker close or spawn-error event sends exactly one. -/
theorem at_most_one_response (events : List Ev) :
    (run events).responses.length ≤ 1 ∧
    (events.any terminalEv = true → (run events).responses.length = 1) := by
  have hinv := run_inv events
  unfold RespInv at hinv
  constructor
  · by_cases h : (run events).isResolved = true
    · rw [if_pos h] at hinv; omega
    · rw [if_neg h] at hinv; omega
  · intro h
    have hres : (run events).isResolved = true :=
      terminal_trace_resolves events initRunner h
    rw [hres] at hinv
    simpa using hinv

theorem at_most_one_response_witness :
    (run [Ev.timeoutFire, Ev.close ⟨1, .parseError, none, false⟩,
      Ev.spawnError "boom"]).responses.length = 1 :=
  (at_most_one_response
    [Ev.timeoutFire, Ev.close ⟨1, .parseError, none, false⟩,
     Ev.spawnError "boom"]).2 (by decide)

/-- C5: a worker exit with a non-zero code resolves with the crash failure
tagged "Song synthesis failed" carrying the captured stderr text, a zero exit
with unparsable output resolves with the distinct tag
"Failed to parse synthesis result" carrying the raw stdout, and the two tags
differ, so the caller can tell the failure kinds apart. -/
theorem crash_and_malformed_distinguished (s : RunnerState)
    (info1 info2 : CloseInfo) (hr : s.isResolved = false)
    (h1 : info1.code ≠ 0) (h2 : info2.code = 0)
    (hp : info2.parse = .parseError) :
    (step s (.close info1)).responses =
      s.responses ++ [.err 500 "Song synthesis failed" s.stderrData] ∧
    (step s (.close info2)).responses =
      s.responses ++
        [.err 500 "Failed to parse synthesis result" s.stdoutData] ∧
    ("Song synthesis failed" : String) ≠ "Failed to parse synthesis result" := by
  refine ⟨?_, ?_, by decide⟩
  · simp [step, closeStep, hr, h1]
  · simp [step, closeStep, hr, h2, hp]

theorem crash_and_malformed_distinguished_witness :
    (step { initRunner with stderrData := "boom", stdoutData := "junk" }
        (.close ⟨1, .parseError, none, false⟩)).responses =
      { initRunner with stderrData := "boom", stdoutData := "junk" }.responses ++
        [.err 500 "Song synthesis failed"
          { initRunner with stderrData := "boom", stdoutData := "junk" }.stderrData] ∧
    (step { initRunner with stderrData := "boom", stdoutData := "junk" }
        (.close ⟨0, .parseError, none, false⟩)).responses =
      { initRunner with stderrData := "boom", stdoutData := "junk" }.responses ++
        [.err 500 "Failed to parse synthesis result"
          { initRunner with stderrData := "boom", stdoutData := "junk" }.stdoutData] ∧
    ("Song synthesis failed" : String) ≠ "Failed to parse synthesis result" :=
  crash_and_malformed_distinguished
    { initRunner with stderrData := "boom", stdoutData := "junk" }
    ⟨1, .parseError, none, false⟩ ⟨0, .parseError, none, false⟩
    rfl (by decide) rfl rfl

end MusicStudio

namespace MusicStudio

/-- C6 counterexample: a crashed composition job — the worker exits with
code 1 after reporting the scratch artifact "/tmp/song.wav" — resolves with
the crash failure, yet no unlink is performed: the artifact named in the
worker output is not removed on this terminal outcome, refuting the claim
that every terminal outcome removes the scratch file. -/
theorem cleanup_missing_on_crash_counterexample :
    (run [Ev.stderrData "boom",
      Ev.close ⟨1, .parsed true (some "/tmp/song.wav") none, some "RIFF",
        false⟩]).responses =
      [Response.err 500 "Song synthesis failed" "boom"] ∧
    (run [Ev.stderrData "boom",
      Ev.close ⟨1, .parsed true (some "/tmp/song.wav") none, some "RIFF",
        false⟩]).unlinked = [] := by
  constructor <;> rfl

/-- C6 amended: only the Completed (success) outcome removes the scratch
audio file — on the success close the reported path is unlinked, while a
crashed close, a malformed-output close, and a timeout leave the unlink list
untouched. -/
theorem cleanup_only_on_completed (s : RunnerState) (p bytes : String)
    (hr : s.isResolved = false) :
    (step s (.close ⟨0, .parsed true (some p) none, some bytes,
        false⟩)).unlinked = s.unlinked ++ [p] ∧
    (∀ info : CloseInfo, info.code ≠ 0 →
      (step s (.close info)).unlinked = s.unlinked) ∧
    (∀ info : CloseInfo, info.parse = .parseError →
      (step s (.close info)).unlinked = s.unlinked) ∧
    (step s .timeoutFire).unlinked = s.unlinked := by
  refine ⟨?_, ?_, ?_, ?_⟩
  · simp [step, closeStep, hr]
  · intro info h; simp [step, closeStep, hr, h]
  · intro info h
    by_cases hc : info.code = 0
    · simp [step, closeStep, hr, hc, h]
    · simp [step, closeStep, hr, hc]
  · by_cases ha : s.timerArmed = true <;> simp [step, ha, hr]

theorem cleanup_only_on_completed_witness :
    (step initRunner (.close ⟨0, .parsed true (some "/tmp/a.wav") none,
        some "RIFF", false⟩)).unlinked = initRunner.unlinked ++ ["/tmp/a.wav"] ∧
    (∀ info : CloseInfo, info.code ≠ 0 →
      (step initRunner (.close info)).unlinked = initRunner.unlinked) ∧
    (∀ info : CloseInfo, info.parse = .parseError →
      (step initRunner (.close info)).unlinked = initRunner.unlinked) ∧
    (step initRunner .timeoutFire).unlinked = initRunner.unlinked :=
  cleanup_only_on_completed initRunner "/tmp/a.wav" "RIFF" rfl

/-- C7: the debit guards the job — when the balance is below the 2-credit
cost no request is issued and the balance is left unchanged (with the paywall
opened when the lyrics were present), and any invocation that did issue the
request must have had a balance of at least 2. -/
theorem debit_guards_job_start (credits : Int) (uo : Bool) (orig lyr : String)
    (outcome : FetchOutcome) :
    (¬ 2 ≤ credits →
      (handleCreateSongFromLyrics credits uo orig lyr outcome).requestSent =
        false ∧
      (handleCreateSongFromLyrics credits uo orig lyr outcome).credits =
        credits) ∧
    ((handleCreateSongFromLyrics credits uo orig lyr outcome).requestSent =
        true → 2 ≤ credits) ∧
    (isBlank (if uo then orig else lyr) = false → ¬ 2 ≤ credits →
      (handleCreateSongFromLyrics credits uo orig lyr outcome).paywallOpened =
        true) := by
  by_cases hly : isBlank (if uo then orig else lyr) = true
  · simp [handleCreateSongFromLyrics, hly]
  · have hly' : isBlank (if uo then orig else lyr) = false := by
      simpa using hly
    by_cases hc : 2 ≤ credits
    · have huc : useCredit 2 credits = (true, credits - 2) := by
        simp [useCredit, hc]
      cases outcome <;> simp [handleCreateSongFromLyrics, hly', huc, hc]
    · have huc : useCredit 2 credits = (false, credits) := by
        simp [useCredit, hc]
      simp [handleCreateSongFromLyrics, hly', huc, hc]

theorem debit_guards_job_start_witness :
    (¬ 2 ≤ (1 : Int) →
      (handleCreateSongFromLyrics 1 true "hello" "" FetchOutcome.aborted).requestSent =
        false ∧
      (handleCreateSongFromLyrics 1 true "hello" "" FetchOutcome.aborted).credits =
        1) ∧
    ((handleCreateSongFromLyrics 1 true "hello" "" FetchOutcome.aborted).requestSent =
        true → 2 ≤ (1 : Int)) ∧
    (isBlank (if true then "hello" else "") = false → ¬ 2 ≤ (1 : Int) →
      (handleCreateSongFromLyrics 1 true "hello" "" FetchOutcome.aborted).paywallOpened =
        true) :=
  debit_guards_job_start 1 true "hello" "" FetchOutcome.aborted

/-- C8 counterexample: a request with tempo 300 and non-blank lyrics reaches
the worker spawn with tempo 300 — a value outside [60, 200] — so the entry
validation does not clamp the tempo before handing it to the worker. -/
theorem tempo_not_clamped_counterexample :
    composeSongEntry ⟨some "la la", none, some 300, none⟩ =
      Sum.inr ⟨"la la", "pop", 300, "C major"⟩ ∧
    ¬ ((60 : Int) ≤ 300 ∧ (300 : Int) ≤ 200) := by
  constructor
  · rfl
  · decide

/-- C8 amended: the entry point performs no tempo clamping — every spawned
worker invocation carries the request fields verbatim, with tempo exactly the
request tempo (default 120 when absent), whatever its magnitude. -/
theorem tempo_forwarded_verbatim (b : ComposeBody) (inv : WorkerInvocation)
    (h : composeSongEntry b = Sum.inr inv) :
    inv.tempo = b.tempo.getD 120 ∧ inv.lyrics = b.lyrics.getD "" ∧
    inv.genre = b.genre.getD "pop" ∧ inv.key = b.key.getD "C major" := by
  unfold composeSongEntry at h
  by_cases hb : isBlank (b.lyrics.getD "") = true
  · simp [hb] at h
  · have hb' : isBlank (b.lyrics.getD "") = false := by simpa using hb
    simp [hb'] at h
    rw [← h]
    exact ⟨rfl, rfl, rfl, rfl⟩

theorem tempo_forwarded_verbatim_witness :
    (WorkerInvocation.mk "hi" "pop" 300 "C major").tempo =
      (ComposeBody.mk (some "hi") none (some 300) none).tempo.getD 120 ∧
    (WorkerInvocation.mk "hi" "pop" 300 "C major").lyrics =
      (ComposeBody.mk (some "hi") none (some 300) none).lyrics.getD "" ∧
    (WorkerInvocation.mk "hi" "pop" 300 "C major").genre =
      (ComposeBody.mk (some "hi") none (some 300) none).genre.getD "pop" ∧
    (WorkerInvocation.mk "hi" "pop" 300 "C major").key =
      (ComposeBody.mk (some "hi") none (some 300) none).key.getD "C major" :=
  tempo_forwarded_verbatim (ComposeBody.mk (some "hi") none (some 300) none)
    (WorkerInvocation.mk "hi" "pop" 300 "C major") rfl

/-- C9: composition is deterministic — two invocations of `compose` on
identical (lyrics, genre, tempo, key) inputs yield identical results,
audio samples included; the model has no randomness and no time-based
seeding. -/
theorem compose_deterministic (l1 l2 g1 g2 : String) (t1 t2 : Int)
    (k1 k2 : String) (hl : l1 = l2) (hg : g1 = g2) (ht : t1 = t2)
    (hk : k1 = k2) :
    compose l1 g1 t1 k1 = compose l2 g2 t2 k2 := by
  subst hl hg ht hk
  rfl

theorem compose_deterministic_witness :
    compose "la la" "pop" 120 "C major" = compose "la la" "pop" 120 "C major" :=
  compose_deterministic "la la" "la la" "pop" "pop" 120 120 "C major" "C major"
    rfl rfl rfl rfl

/-- C10: for every amount and every starting balance, a successful
`useCredit` debit returns true and decrements the balance by exactly the
amount, leaving a non-negative result, and a failed debit returns false and
leaves the balance unchanged — so a debit can never drive the balance
negative. -/
theorem useCredit_exact_and_nonnegative (amount credits : Int) :
    (amount ≤ credits →
      useCredit amount credits = (true, credits - amount) ∧
      0 ≤ credits - amount) ∧
    (¬ amount ≤ credits → useCredit amount credits = (false, credits)) := by
  constructor
  · intro h
    exact ⟨by simp [useCredit, h], by omega⟩
  · intro h
    simp [useCredit, h]

theorem useCredit_exact_and_nonnegative_witness :
    useCredit 2 5 = (true, 5 - 2) ∧ (0 : Int) ≤ 5 - 2 :=
  (useCredit_exact_and_nonnegative 2 5).1 (by decide)

end MusicStudio
